import Mathlib

/-!
Verification of the fraction-blocks generator.

The program (`fraction_blocks.py`, `main.py`, `make_blocks.py`) composes
OpenSCAD solid-model trees for 3D-printable "pie slice" fraction blocks
using SolidPython.  We embed the solid-model tree as an inductive type and
the builders of `FractionBlocks` as pure functions over exact rationals
(Python's float arithmetic on these small decimal constants is idealised
to ℚ).  `make_blocks.py`'s batch loop is embedded as well.
-/

/-- A node of the SolidPython/OpenSCAD solid-model tree.  Only the node
kinds the program actually produces are present.  Operator nodes carry
their list of children, mirroring SolidPython's `op(...)(child, ...)`
application. -/
inductive Solid where
  | square (w h : ℚ)
  | text (s : String) (size : ℚ)
  | cylinder (r h : ℚ) (segments : ℕ)
  | translate (v : ℚ × ℚ × ℚ) (children : List Solid)
  | rotate (a : ℚ) (children : List Solid)
  | scale (v : ℚ × ℚ × ℚ) (children : List Solid)
  | linear_extrude (height : ℚ) (children : List Solid)
  | rotate_extrude (angle : ℚ) (segments : ℕ) (children : List Solid)
  | offset (r : ℚ) (children : List Solid)
  | union (children : List Solid)
  | difference (children : List Solid)

/-- Errors this embedding can surface.  `zeroDivisionError` models Python's
built-in `ZeroDivisionError`, raised by `360 * self.numerator /
self.denominator` when the denominator is zero.  `invalidFractionError` is
the error name the specification's taxonomy uses; the source code defines
no such exception, and the constructor exists only so statements about
which error construction fails with can be expressed. -/
inductive PyError where
  | zeroDivisionError
  | invalidFractionError
  deriving DecidableEq, Repr

/-- Decidable equality for `Except` results, so that concrete outcomes of
the fallible constructor can be evaluated. -/
instance exceptDecEq {ε α : Type} [DecidableEq ε] [DecidableEq α] :
    DecidableEq (Except ε α) := fun x y =>
  match x, y with
  | Except.ok a, Except.ok b =>
      if h : a = b then isTrue (by rw [h]) else isFalse (by simp [h])
  | Except.error e, Except.error f =>
      if h : e = f then isTrue (by rw [h]) else isFalse (by simp [h])
  | Except.ok _, Except.error _ => isFalse (by simp)
  | Except.error _, Except.ok _ => isFalse (by simp)

/-- The `FractionBlocks` dataclass of `fraction_blocks.py`: the constructor
fields with their declared defaults, plus the derived `_angle` field which
the dataclass leaves unset until `__post_init__` runs (we default it to 0;
every constructed value goes through `FractionBlocks.__post_init__`).  The
unused `_scad_file`/`_stl_file` fields are omitted: no code reads or writes
them. -/
structure FractionBlocks where
  filename : String := "output.stl"
  numerator : ℤ := 1
  denominator : ℤ := 3
  slice_radius : ℚ := 50
  slice_height : ℚ := 10
  slice_pan_gap : ℚ := 2
  pan_floor_height : ℚ := 3
  pan_wall_width : ℚ := 3
  label_position : ℚ := 3
  label_divider_scale : ℚ := 1
  label_font_size : ℚ := 13
  fillet : ℚ := 2
  segments : ℕ := 200
  _angle : ℚ := 0
  deriving DecidableEq, Repr

namespace FractionBlocks

/-- Embeds `__post_init__`: `self._angle = 360 * self.numerator /
self.denominator`.  Python's true division raises `ZeroDivisionError` on a
zero denominator, so the embedded constructor is fallible. -/
def __post_init__ (self : FractionBlocks) : Except PyError FractionBlocks :=
  if self.denominator = 0 then
    Except.error PyError.zeroDivisionError
  else
    Except.ok { self with _angle := 360 * (self.numerator : ℚ) / (self.denominator : ℚ) }

/-- Embeds `_assemble_text`: a centered text node of size
`label_font_size`. -/
def _assemble_text (self : FractionBlocks) (string : String) : Solid :=
  Solid.text string self.label_font_size

/-- Embeds `_assemble_label`: three glyphs (numerator, vinculum U+2015,
denominator) laid out with `divide = slice_radius / 2`, linearly extruded
to `0.2 * slice_height` (the decimal literals 0.2 and 0.05 are written as the equal rationals 2/10 and 5/100) and rotated by −90 degrees. -/
def _assemble_label (self : FractionBlocks) : Solid :=
  let divide : ℚ := self.slice_radius / 2
  Solid.union [
    Solid.rotate (-90) [
      Solid.linear_extrude (2 / 10 * self.slice_height) [
        Solid.translate (0, divide / 2 + self.label_position, 0) [
          Solid.rotate 180 [self._assemble_text (toString self.numerator)]],
        Solid.translate (0, divide - 5 / 100 * self.slice_radius + self.label_position, 0) [
          Solid.scale (self.label_divider_scale, 1, 1) [self._assemble_text ("―")]],
        Solid.translate (0, divide + divide / 2 + self.label_position, 0) [
          Solid.rotate 180 [self._assemble_text (toString self.denominator)]]]]]

/-- The 2D profile `_assemble_slice` sweeps: the rectangle shrunk by
`2 * fillet` in each dimension, translated by `(fillet, fillet)` and grown
back by `offset(r = fillet)`.  Named here for reuse in statements; the
source inlines it inside `_assemble_slice`. -/
def _slice_profile (self : FractionBlocks) : Solid :=
  Solid.translate (self.fillet, self.fillet, 0) [
    Solid.offset self.fillet [
      Solid.square (self.slice_radius - 2 * self.fillet) (self.slice_height - 2 * self.fillet)]]

/-- Embeds `_assemble_slice`: the profile revolved through `_angle` degrees
with `segments` tessellation. -/
def _assemble_slice (self : FractionBlocks) : Solid :=
  Solid.rotate_extrude self._angle self.segments [
    Solid.translate (self.fillet, self.fillet, 0) [
      Solid.offset self.fillet [
        Solid.square (self.slice_radius - 2 * self.fillet) (self.slice_height - 2 * self.fillet)]]]

/-- Embeds `_assemble_pie_slice`: the union of the label, raised to
`slice_height` and rotated by `_angle / 2`, with the slice solid. -/
def _assemble_pie_slice (self : FractionBlocks) : Solid :=
  Solid.union [
    Solid.translate (0, 0, self.slice_height) [
      Solid.rotate (self._angle / 2) [self._assemble_label]],
    self._assemble_slice]

/-- Embeds `_assemble_pie_pan`: outer cylinder of radius
`slice_radius + slice_pan_gap + pan_wall_width` minus an inner cylinder
raised by `pan_floor_height`. -/
def _assemble_pie_pan (self : FractionBlocks) : Solid :=
  let inner : ℚ := self.slice_radius + self.slice_pan_gap
  let outer : ℚ := inner + self.pan_wall_width
  Solid.difference [
    Solid.cylinder outer (self.pan_floor_height + self.slice_height * (8 / 10)) self.segments,
    Solid.translate (0, 0, self.pan_floor_height) [
      Solid.cylinder inner self.slice_height self.segments]]

end FractionBlocks

/-- The fixed denominator list of `make_blocks.py`. -/
def denominators : List ℤ := [1, 2, 3, 4, 5, 6, 7, 8, 9, 10, 12, 16]

/-- The constructor-argument record `make_blocks` passes to
`FractionBlocks(...)` for a given denominator: the `match denominator`
tweak for 9, 10, 12 and 16 sets `label_font_size = 9`,
`label_divider_scale = 0.7`, `label_position = 2`; every other denominator
uses the defaults. -/
def make_blocks_args (denominator : ℤ) : FractionBlocks :=
  if denominator = 9 ∨ denominator = 10 ∨ denominator = 12 ∨ denominator = 16 then
    { denominator := denominator, label_font_size := 9,
      label_divider_scale := 7 / 10, label_position := 2 }
  else
    { denominator := denominator }

/-- The `FractionBlocks` value as constructed by `make_blocks` (dataclass
construction runs `__post_init__`). -/
def make_blocks_constructed (denominator : ℤ) : Except PyError FractionBlocks :=
  (make_blocks_args denominator).__post_init__

/-- The same value after `make_blocks` executes
`block.filename = f'{prefix}_{block.numerator}_{block.denominator}.scad'`,
mutating the `filename` field of the constructed object. -/
def make_blocks_block (denominator : ℤ) (pre : String) : Except PyError FractionBlocks :=
  (make_blocks_constructed denominator).map (fun b =>
    { b with filename :=
        pre ++ "_" ++ toString b.numerator ++ "_" ++ toString b.denominator ++ ".scad" })

/-- Pointwise region semantics for the 2D fragment of `Solid` that the
slice profile uses (`square`, one-child `translate`, one-child `offset`).
`offset r` is the Euclidean grow: a point lies in the result iff it is
within distance `r` of a point of the child region (stated with squared
distances so everything stays in ℚ).  Used to state geometric
consequences, e.g. that a zero fillet leaves the profile an exact
rectangle with sharp corners. -/
def region2d : Solid → ℚ × ℚ → Prop
  | Solid.square w h => fun p => 0 ≤ p.1 ∧ p.1 ≤ w ∧ 0 ≤ p.2 ∧ p.2 ≤ h
  | Solid.translate v [c] => fun p => region2d c (p.1 - v.1, p.2 - v.2.1)
  | Solid.offset r [c] => fun p =>
      ∃ q : ℚ × ℚ, region2d c q ∧ (p.1 - q.1) ^ 2 + (p.2 - q.2) ^ 2 ≤ r ^ 2
  | _ => fun _ => False

/-- The value `make_blocks` constructs for denominator 1 (all defaults
except the denominator; `__post_init__` sets `_angle` to 360). -/
def fb_one_constructed : FractionBlocks := { denominator := 1, _angle := 360 }

/-- The same object after `make_blocks` reassigns its `filename` field. -/
def fb_one_final : FractionBlocks :=
  { denominator := 1, _angle := 360, filename := "fb_1_1.scad" }

/-- Claim C1: for every Config whose construction succeeds (denominator
nonzero), the derived `_angle` equals `360 * numerator / denominator`
degrees; in the exact rational model the equality is on the nose (hence
well within the stated 1e-9 tolerance), and in particular the angle for
1/3 is 120 and the angle for 1/1 is 360. -/
theorem angle_formula (cfg cfg' : FractionBlocks)
    (h : cfg.__post_init__ = Except.ok cfg') :
    cfg'._angle = 360 * (cfg.numerator : ℚ) / (cfg.denominator : ℚ) ∧
    ({ numerator := 1, denominator := 3 : FractionBlocks }).__post_init__.map
      FractionBlocks._angle = Except.ok 120 ∧
    ({ numerator := 1, denominator := 1 : FractionBlocks }).__post_init__.map
      FractionBlocks._angle = Except.ok 360 := by
  refine ⟨?_, ?_, ?_⟩
  · unfold FractionBlocks.__post_init__ at h
    split at h
    · simp at h
    · simp only [Except.ok.injEq] at h
      subst h
      rfl
  · norm_num [FractionBlocks.__post_init__, Except.map]
  · norm_num [FractionBlocks.__post_init__, Except.map]

/-- Witness for `angle_formula` at the default fraction 1/3. -/
theorem angle_formula_witness :
    ({ _angle := 120 : FractionBlocks })._angle =
      360 * ((1 : ℤ) : ℚ) / ((3 : ℤ) : ℚ) :=
  (angle_formula {} { _angle := 120 }
    (by simp [FractionBlocks.__post_init__]; norm_num)).1

/-- Claim C5: for every successfully constructed Config, the assembled
pie-slice tree is the union of the label—raised to `slice_height` and
rotated by half the derived angle about the sweep axis—with the slice
solid. -/
theorem pie_slice_assembly (cfg cfg' : FractionBlocks)
    (h : cfg.__post_init__ = Except.ok cfg') :
    cfg'._assemble_pie_slice = Solid.union [
      Solid.translate (0, 0, cfg.slice_height) [
        Solid.rotate (360 * (cfg.numerator : ℚ) / (cfg.denominator : ℚ) / 2) [
          cfg'._assemble_label]],
      cfg'._assemble_slice] := by
  unfold FractionBlocks.__post_init__ at h
  split at h
  · simp at h
  · simp only [Except.ok.injEq] at h
    subst h
    rfl

/-- Witness for `pie_slice_assembly` at the default Config. -/
theorem pie_slice_assembly_witness :
    ({ _angle := 120 : FractionBlocks })._assemble_pie_slice = Solid.union [
      Solid.translate (0, 0, 10) [
        Solid.rotate (360 * ((1 : ℤ) : ℚ) / ((3 : ℤ) : ℚ) / 2) [
          ({ _angle := 120 : FractionBlocks })._assemble_label]],
      ({ _angle := 120 : FractionBlocks })._assemble_slice] :=
  pie_slice_assembly {} { _angle := 120 }
    (by simp [FractionBlocks.__post_init__]; norm_num)

/-- Claim C6 as stated is false: a zero denominator does make construction
fail, but with `ZeroDivisionError`, not with an `InvalidFractionError`
(the source defines no such exception).  Counterexample at numerator 1. -/
theorem denominator_zero_not_invalid_fraction_error :
    ({ numerator := 1, denominator := 0 : FractionBlocks }).__post_init__ ≠
      Except.error PyError.invalidFractionError := by
  simp [FractionBlocks.__post_init__]

/-- Claim C6 amended: for every Config with denominator 0 (any numerator),
construction fails with `ZeroDivisionError`. -/
theorem denominator_zero_fails (cfg : FractionBlocks)
    (h : cfg.denominator = 0) :
    cfg.__post_init__ = Except.error PyError.zeroDivisionError := by
  simp [FractionBlocks.__post_init__, h]

/-- Witness for `denominator_zero_fails` at denominator 0. -/
theorem denominator_zero_fails_witness :
    ({ denominator := 0 : FractionBlocks }).__post_init__ =
      Except.error PyError.zeroDivisionError :=
  denominator_zero_fails { denominator := 0 } rfl

/-- Claim C2: for every Config the label builder emits exactly three
glyphs along the layout axis with `divide = slice_radius / 2`: the
numerator at offset `divide / 2 + label_position` rotated 180 degrees, the
vinculum at `divide - 0.05 * slice_radius + label_position` scaled by
`label_divider_scale` horizontally only, and the denominator at
`divide + divide / 2 + label_position` rotated 180 degrees; all extruded
to `0.2 * slice_height` and the assembly rotated by −90 degrees.  For
`slice_radius = 50` the three offsets are `12.5 + label_position`,
`22.5 + label_position` and `37.5 + label_position`. -/
theorem label_layout (cfg : FractionBlocks) :
    cfg._assemble_label = Solid.union [
      Solid.rotate (-90) [
        Solid.linear_extrude (2 / 10 * cfg.slice_height) [
          Solid.translate (0, cfg.slice_radius / 2 / 2 + cfg.label_position, 0) [
            Solid.rotate 180 [Solid.text (toString cfg.numerator) cfg.label_font_size]],
          Solid.translate
            (0, cfg.slice_radius / 2 - 5 / 100 * cfg.slice_radius + cfg.label_position, 0) [
            Solid.scale (cfg.label_divider_scale, 1, 1) [
              Solid.text ("―") cfg.label_font_size]],
          Solid.translate
            (0, cfg.slice_radius / 2 + cfg.slice_radius / 2 / 2 + cfg.label_position, 0) [
            Solid.rotate 180 [Solid.text (toString cfg.denominator) cfg.label_font_size]]]]] ∧
    (cfg.slice_radius = 50 →
      cfg._assemble_label = Solid.union [
        Solid.rotate (-90) [
          Solid.linear_extrude (2 / 10 * cfg.slice_height) [
            Solid.translate (0, 25 / 2 + cfg.label_position, 0) [
              Solid.rotate 180 [Solid.text (toString cfg.numerator) cfg.label_font_size]],
            Solid.translate (0, 45 / 2 + cfg.label_position, 0) [
              Solid.scale (cfg.label_divider_scale, 1, 1) [
                Solid.text ("―") cfg.label_font_size]],
            Solid.translate (0, 75 / 2 + cfg.label_position, 0) [
              Solid.rotate 180 [
                Solid.text (toString cfg.denominator) cfg.label_font_size]]]]]) := by
  refine ⟨rfl, fun h => ?_⟩
  rw [FractionBlocks._assemble_label, h]
  norm_num [FractionBlocks._assemble_text]

/-- Witness for `label_layout` at the default Config, whose radius is
50. -/
theorem label_layout_witness :
    ({} : FractionBlocks)._assemble_label = Solid.union [
      Solid.rotate (-90) [
        Solid.linear_extrude (2 / 10 * ({} : FractionBlocks).slice_height) [
          Solid.translate (0, 25 / 2 + ({} : FractionBlocks).label_position, 0) [
            Solid.rotate 180 [Solid.text (toString (1 : ℤ)) 13]],
          Solid.translate (0, 45 / 2 + ({} : FractionBlocks).label_position, 0) [
            Solid.scale (1, 1, 1) [Solid.text ("―") 13]],
          Solid.translate (0, 75 / 2 + ({} : FractionBlocks).label_position, 0) [
            Solid.rotate 180 [Solid.text (toString (3 : ℤ)) 13]]]]] :=
  (label_layout {}).2 rfl

/-- Claim C3: for every Config the slice solid revolves, through the
derived `_angle` with the configured tessellation, the profile obtained
from a `(slice_radius - 2 fillet) × (slice_height - 2 fillet)` rectangle
translated by `(fillet, fillet)` and grown back by a 2D offset of radius
`fillet`; and when `fillet = 0` the profile region is exactly the sharp
`[0, slice_radius] × [0, slice_height]` rectangle. -/
theorem slice_build (cfg : FractionBlocks) :
    cfg._assemble_slice =
      Solid.rotate_extrude cfg._angle cfg.segments [cfg._slice_profile] ∧
    cfg._slice_profile = Solid.translate (cfg.fillet, cfg.fillet, 0) [
      Solid.offset cfg.fillet [
        Solid.square (cfg.slice_radius - 2 * cfg.fillet)
          (cfg.slice_height - 2 * cfg.fillet)]] ∧
    (cfg.fillet = 0 → ∀ p : ℚ × ℚ,
      region2d cfg._slice_profile p ↔
        0 ≤ p.1 ∧ p.1 ≤ cfg.slice_radius ∧ 0 ≤ p.2 ∧ p.2 ≤ cfg.slice_height) := by
  refine ⟨rfl, rfl, fun hf p => ?_⟩
  simp only [FractionBlocks._slice_profile, hf, region2d, mul_zero, sub_zero]
  constructor
  · rintro ⟨q, hq, hle⟩
    have e1 : (p.1 - q.1) ^ 2 = 0 :=
      le_antisymm (by nlinarith [sq_nonneg (p.2 - q.2)]) (sq_nonneg _)
    have e2 : (p.2 - q.2) ^ 2 = 0 :=
      le_antisymm (by nlinarith [sq_nonneg (p.1 - q.1)]) (sq_nonneg _)
    have h1 : p.1 = q.1 := sub_eq_zero.mp (sq_eq_zero_iff.mp e1)
    have h2 : p.2 = q.2 := sub_eq_zero.mp (sq_eq_zero_iff.mp e2)
    rw [h1, h2]
    exact hq
  · intro hp
    exact ⟨p, hp, by norm_num⟩

/-- Witness for `slice_build` at a zero-fillet Config and the point
(1, 1), which lies in the sharp rectangular profile. -/
theorem slice_build_witness :
    region2d ({ fillet := 0 : FractionBlocks })._slice_profile (1, 1) :=
  ((slice_build { fillet := 0 }).2.2 rfl (1, 1)).mpr (by norm_num)

/-- Claim C4: for every Config the pan is the boolean difference of an
outer cylinder of radius `slice_radius + slice_pan_gap + pan_wall_width`
and height `pan_floor_height + 0.8 * slice_height` minus an inner cylinder
of radius `slice_radius + slice_pan_gap` and height `slice_height` raised
by `pan_floor_height`; for radius 50, gap 2, wall 3 the radii are 52 and
55, and the outer radius exceeds the inner one whenever the wall width is
positive. -/
theorem pie_pan_build (cfg : FractionBlocks) :
    cfg._assemble_pie_pan = Solid.difference [
      Solid.cylinder (cfg.slice_radius + cfg.slice_pan_gap + cfg.pan_wall_width)
        (cfg.pan_floor_height + cfg.slice_height * (8 / 10)) cfg.segments,
      Solid.translate (0, 0, cfg.pan_floor_height) [
        Solid.cylinder (cfg.slice_radius + cfg.slice_pan_gap)
          cfg.slice_height cfg.segments]] ∧
    (cfg.slice_radius = 50 → cfg.slice_pan_gap = 2 → cfg.pan_wall_width = 3 →
      cfg.slice_radius + cfg.slice_pan_gap = 52 ∧
      cfg.slice_radius + cfg.slice_pan_gap + cfg.pan_wall_width = 55) ∧
    (0 < cfg.pan_wall_width →
      cfg.slice_radius + cfg.slice_pan_gap <
        cfg.slice_radius + cfg.slice_pan_gap + cfg.pan_wall_width) := by
  refine ⟨rfl, fun h1 h2 h3 => ?_, fun h => by linarith⟩
  rw [h1, h2, h3]
  norm_num

/-- Witness for `pie_pan_build` at the default Config (radius 50, gap 2,
wall 3). -/
theorem pie_pan_build_witness :
    (({} : FractionBlocks).slice_radius + ({} : FractionBlocks).slice_pan_gap = 52 ∧
      ({} : FractionBlocks).slice_radius + ({} : FractionBlocks).slice_pan_gap +
        ({} : FractionBlocks).pan_wall_width = 55) ∧
    ({} : FractionBlocks).slice_radius + ({} : FractionBlocks).slice_pan_gap <
      ({} : FractionBlocks).slice_radius + ({} : FractionBlocks).slice_pan_gap +
        ({} : FractionBlocks).pan_wall_width :=
  ⟨(pie_pan_build {}).2.1 rfl rfl rfl, (pie_pan_build {}).2.2 (by norm_num)⟩

/-- Claim C10: the pan tree depends only on the dimensional fields: two
Configs that agree on everything except numerator, denominator and the
derived `_angle` produce identical pan trees. -/
theorem pie_pan_independent_of_fraction (c1 c2 : FractionBlocks)
    (_hname : c1.filename = c2.filename)
    (hr : c1.slice_radius = c2.slice_radius)
    (hh : c1.slice_height = c2.slice_height)
    (hg : c1.slice_pan_gap = c2.slice_pan_gap)
    (hfl : c1.pan_floor_height = c2.pan_floor_height)
    (hw : c1.pan_wall_width = c2.pan_wall_width)
    (_hlp : c1.label_position = c2.label_position)
    (_hld : c1.label_divider_scale = c2.label_divider_scale)
    (_hlf : c1.label_font_size = c2.label_font_size)
    (_hfi : c1.fillet = c2.fillet)
    (hs : c1.segments = c2.segments) :
    c1._assemble_pie_pan = c2._assemble_pie_pan := by
  simp only [FractionBlocks._assemble_pie_pan, hr, hg, hw, hfl, hh, hs]

/-- Witness for `pie_pan_independent_of_fraction`: the pans for the
fractions 1/4 and 2/3 coincide. -/
theorem pie_pan_independent_of_fraction_witness :
    ({ numerator := 1, denominator := 4, _angle := 90 : FractionBlocks })._assemble_pie_pan =
      ({ numerator := 2, denominator := 3, _angle := 240 : FractionBlocks })._assemble_pie_pan :=
  pie_pan_independent_of_fraction _ _ rfl rfl rfl rfl rfl rfl rfl rfl rfl rfl rfl

/-- Claim C7 as stated is false: with `fillet = 25` and the default
`slice_radius = 50` (so `2 * fillet ≥ slice_radius`), constructing the
Config and building the slice does not fail with any error; it returns a
tree whose profile rectangle is degenerate (width 0, height −40).  The
source performs no dimension validation and defines no
`InvalidDimensionError`. -/
theorem oversized_fillet_still_builds :
    (({ fillet := 25 : FractionBlocks }).__post_init__).map
        FractionBlocks._assemble_slice =
      Except.ok (Solid.rotate_extrude (360 * ((1 : ℤ) : ℚ) / ((3 : ℤ) : ℚ)) 200 [
        Solid.translate (25, 25, 0) [
          Solid.offset 25 [Solid.square 0 (-40)]]]) := by
  norm_num [FractionBlocks.__post_init__, FractionBlocks._assemble_slice, Except.map]

/-- Claim C7 amended: the slice builder never fails; when
`2 * fillet ≥ slice_radius` it still produces the revolved profile, whose
rectangle width `slice_radius - 2 * fillet` is non-positive (degenerate),
and symmetrically for `slice_height`. -/
theorem oversized_fillet_no_validation (cfg : FractionBlocks)
    (h : cfg.slice_radius ≤ 2 * cfg.fillet) :
    cfg._assemble_slice =
      Solid.rotate_extrude cfg._angle cfg.segments [cfg._slice_profile] ∧
    cfg.slice_radius - 2 * cfg.fillet ≤ 0 :=
  ⟨rfl, by linarith⟩

/-- Witness for `oversized_fillet_no_validation` at `fillet = 25`. -/
theorem oversized_fillet_no_validation_witness :
    ({ fillet := 25 : FractionBlocks })._assemble_slice =
      Solid.rotate_extrude 0 200 [({ fillet := 25 : FractionBlocks })._slice_profile] ∧
    (50 : ℚ) - 2 * 25 ≤ 0 :=
  oversized_fillet_no_validation { fillet := 25 } (by norm_num)

/-- Claim C8 as stated is false: `make_blocks` mutates the `filename`
field of each `FractionBlocks` object after construction (the constructed
value carries the default `output.stl`; the batch loop then assigns
`fb_1_1.scad` for denominator 1 under the default `fb` file-name
stem). -/
theorem make_blocks_mutates_filename :
    (make_blocks_block 1 ("fb")).map FractionBlocks.filename ≠
      (make_blocks_constructed 1).map FractionBlocks.filename := by
  simp [make_blocks_block, make_blocks_constructed, make_blocks_args,
    FractionBlocks.__post_init__, Except.map]
  decide

/-- Claim C8 amended: `filename` is the only field `make_blocks` ever
modifies after construction; every other field, including the derived
`_angle`, is unchanged, and `_angle` still equals
`360 * numerator / denominator` afterwards, so it never goes stale. -/
theorem make_blocks_filename_only_mutation (d : ℤ) (stem : String)
    (b0 b : FractionBlocks)
    (h0 : make_blocks_constructed d = Except.ok b0)
    (h : make_blocks_block d stem = Except.ok b) :
    (b.numerator = b0.numerator ∧ b.denominator = b0.denominator ∧
      b.slice_radius = b0.slice_radius ∧ b.slice_height = b0.slice_height ∧
      b.slice_pan_gap = b0.slice_pan_gap ∧ b.pan_floor_height = b0.pan_floor_height ∧
      b.pan_wall_width = b0.pan_wall_width ∧ b.label_position = b0.label_position ∧
      b.label_divider_scale = b0.label_divider_scale ∧
      b.label_font_size = b0.label_font_size ∧ b.fillet = b0.fillet ∧
      b.segments = b0.segments) ∧
    b._angle = b0._angle ∧
    b._angle = 360 * (b.numerator : ℚ) / (b.denominator : ℚ) := by
  rw [make_blocks_block, h0] at h
  simp only [Except.map, Except.ok.injEq] at h
  subst h
  have h0' := h0
  rw [make_blocks_constructed] at h0'
  unfold FractionBlocks.__post_init__ at h0'
  split at h0'
  · simp at h0'
  · simp only [Except.ok.injEq] at h0'
    subst h0'
    exact ⟨⟨rfl, rfl, rfl, rfl, rfl, rfl, rfl, rfl, rfl, rfl, rfl, rfl⟩, rfl, rfl⟩

/-- Witness for `make_blocks_filename_only_mutation` at denominator 1 with
stem `fb`. -/
theorem make_blocks_filename_only_mutation_witness :
    fb_one_final._angle = fb_one_constructed._angle ∧
    fb_one_final._angle =
      360 * (fb_one_final.numerator : ℚ) / (fb_one_final.denominator : ℚ) :=
  (make_blocks_filename_only_mutation 1 ("fb") fb_one_constructed fb_one_final
    (by norm_num [make_blocks_constructed, make_blocks_args,
      FractionBlocks.__post_init__, fb_one_constructed])
    (by
      norm_num [make_blocks_block, make_blocks_constructed, make_blocks_args,
        FractionBlocks.__post_init__, Except.map, fb_one_constructed, fb_one_final]
      decide)).2

/-- Claim C9: the batch loop iterates exactly the denominators
1,2,3,4,5,6,7,8,9,10,12,16; for 9, 10, 12 and 16 (and only those) the
constructor arguments lower `label_font_size` to 9 (default 13),
`label_divider_scale` to 0.7 (default 1) and `label_position` to 2
(default 3); every other denominator keeps all defaults. -/
theorem batch_denominators_and_tweaks :
    denominators = [1, 2, 3, 4, 5, 6, 7, 8, 9, 10, 12, 16] ∧
    (∀ d ∈ denominators, (d = 9 ∨ d = 10 ∨ d = 12 ∨ d = 16) →
      (make_blocks_args d).label_font_size = 9 ∧
      (make_blocks_args d).label_divider_scale = 7 / 10 ∧
      (make_blocks_args d).label_position = 2 ∧
      (make_blocks_args d).label_font_size < ({} : FractionBlocks).label_font_size ∧
      (make_blocks_args d).label_divider_scale <
        ({} : FractionBlocks).label_divider_scale ∧
      (make_blocks_args d).label_position < ({} : FractionBlocks).label_position) ∧
    (∀ d ∈ denominators, ¬(d = 9 ∨ d = 10 ∨ d = 12 ∨ d = 16) →
      make_blocks_args d = { denominator := d }) := by
  refine ⟨rfl, fun d _ h => ?_, fun d _ h => ?_⟩
  · rw [make_blocks_args, if_pos h]
    norm_num
  · rw [make_blocks_args, if_neg h]

/-- Witness for `batch_denominators_and_tweaks`: denominator 9 gets the
reduced font size and denominator 2 keeps the default arguments. -/
theorem batch_denominators_and_tweaks_witness :
    (make_blocks_args 9).label_font_size = 9 ∧
    make_blocks_args 2 = { denominator := 2 } :=
  ⟨(batch_denominators_and_tweaks.2.1 9 (by decide) (Or.inl rfl)).1,
   batch_denominators_and_tweaks.2.2 2 (by decide) (by decide)⟩
